import Mathlib

/-!
Shallow embedding of the interest-period calculation engine of the
interest-calculator application (sources: `src/script_new.js`,
`src/static/script_db.js`, `src/unnamed/part_000`).

JavaScript numbers are modelled as exact rationals (`ℚ`) where the code
only uses field arithmetic, and as reals (`ℝ`) where `Math.pow` with a
possibly fractional exponent is involved.  Calendar dates are modelled by
their JS decomposition `(getFullYear, getMonth, getDate)` with the 0–11
month convention; comparison of `Date` objects built from date-only
strings coincides with lexicographic comparison of that decomposition.
-/

namespace InterestCalc

/-- A calendar date as decomposed by the JS code: `year = getFullYear()`,
`month = getMonth()` (0–11), `day = getDate()` (1–31). -/
structure CalDate where
  year : Int
  month : Int
  day : Int
deriving DecidableEq, Repr

/-- `new Date(a) < new Date(b)` for date-only strings: lexicographic
comparison of (year, month, day). -/
def dateLt (a b : CalDate) : Prop :=
  a.year < b.year ∨
    (a.year = b.year ∧ (a.month < b.month ∨ (a.month = b.month ∧ a.day < b.day)))

instance (a b : CalDate) : Decidable (dateLt a b) := by
  unfold dateLt; infer_instance

theorem dateLt_trans {a b c : CalDate} (h1 : dateLt a b) (h2 : dateLt b c) :
    dateLt a c := by
  unfold dateLt at *; omega

/-- `monthsBetween(startDateStr, endDateStr)` from `script_new.js`
(lines 177-190; identical in `script_db.js` lines 257-270):
guard `if (end < start) return 0`, then
`(end.getFullYear() - start.getFullYear()) * 12 + (end.getMonth() - start.getMonth())`
plus `(end.getDate() - start.getDate()) / 30`. -/
def monthsBetween (start finish : CalDate) : ℚ :=
  if dateLt finish start then 0
  else
    let years : Int := finish.year - start.year
    let months : Int := finish.month - start.month
    let totalMonths : Int := years * 12 + months
    let dayDiff : Int := finish.day - start.day
    (totalMonths : ℚ) + (dayDiff : ℚ) / 30

/-- The four outputs computed by `calculateInterest`. -/
structure InterestResult where
  simpleInterest : ℝ
  compoundInterest : ℝ
  totalSimple : ℝ
  totalCompound : ℝ

/-- The full-precision interest formulas of `calculateInterest` in
`script_new.js` (lines 224-228): `principal * (rate / 100) * months`,
`principal * (Math.pow(1 + rate / 100, months) - 1)`, and the two totals.
`Math.pow` with a fractional exponent is real exponentiation (`rpow`). -/
noncomputable def calculateInterest (principal rate months : ℝ) : InterestResult :=
  let simpleInterest := principal * (rate / 100) * months
  let compoundInterest := principal * ((1 + rate / 100) ^ months - 1)
  let totalSimple := principal + simpleInterest
  let totalCompound := principal + compoundInterest
  { simpleInterest := simpleInterest, compoundInterest := compoundInterest,
    totalSimple := totalSimple, totalCompound := totalCompound }

/-- `Math.round(x)` on a rational: floor of `x + 1/2`. -/
def jsRound (x : ℚ) : ℤ := ⌊x + 1 / 2⌋

/-- `Math.round(x * 100) / 100` on a rational. -/
def round2 (x : ℚ) : ℚ := (jsRound (x * 100) : ℚ) / 100

/-- `Math.round(x * 100) / 100` on a real. -/
noncomputable def round2R (x : ℝ) : ℝ := ((⌊x * 100 + 1 / 2⌋ : ℤ) : ℝ) / 100

/-- The round-immediately variant of `calculateInterest` in
`src/static/script_db.js` (lines 297-308) and `src/unnamed/part_000`
(lines 234-245): the month span is rounded to 2 decimals first
(`months = Math.round(this.monthsBetween(...) * 100) / 100`), each
interest is computed from that rounded span and rounded, and each total
is the principal plus the already-rounded interest, rounded again. -/
noncomputable def calculateInterest_db (principal rate rawMonths : ℝ) : InterestResult :=
  let months := round2R rawMonths
  let simpleInterest := round2R (principal * (rate / 100) * months)
  let compoundInterest := round2R (principal * ((1 + rate / 100) ^ months - 1))
  let totalSimple := round2R (principal + simpleInterest)
  let totalCompound := round2R (principal + compoundInterest)
  { simpleInterest := simpleInterest, compoundInterest := compoundInterest,
    totalSimple := totalSimple, totalCompound := totalCompound }

/-- In `script_db.js` the `updateData` object sent to the PUT request
(lines 314-323) is built from the same four constants as the values
handed to `updateResults` (lines 350-355). -/
noncomputable def persistedUpdate (principal rate rawMonths : ℝ) : InterestResult :=
  calculateInterest_db principal rate rawMonths

/-- The values handed to `updateResults` for display in `script_db.js`. -/
noncomputable def displayedResults (principal rate rawMonths : ℝ) : InterestResult :=
  calculateInterest_db principal rate rawMonths

/-- Advance a calendar date by exactly one calendar month, day-of-month
held constant (0–11 month indices wrap from 11 to 0 with a year carry). -/
def addOneMonth (d : CalDate) : CalDate :=
  if d.month = 11 then ⟨d.year + 1, 0, d.day⟩ else ⟨d.year, d.month + 1, d.day⟩

/-- The investment objects stored in `this.history` by `script_new.js`:
see the object literal in `addInvestment` (lines 125-138).  The empty
`endDate: ''` is modelled as `none`; `calculationDate` is an opaque
timestamp. -/
structure InvestmentRecord where
  id : ℕ
  name : String
  principal : ℝ
  rate : ℝ
  startDate : CalDate
  endDate : Option CalDate
  months : ℝ
  simpleInterest : ℝ
  compoundInterest : ℝ
  totalSimple : ℝ
  totalCompound : ℝ
  calculationDate : ℕ

/-- The record created by `addInvestment` in `script_new.js` (lines
125-138): no end date, `months`, `simpleInterest`, `compoundInterest`
initialised to `0`, and `totalSimple`, `totalCompound` initialised to the
principal. -/
noncomputable def mkInvestment (id : ℕ) (name : String) (principal rate : ℚ)
    (startDate : CalDate) (now : ℕ) : InvestmentRecord :=
  { id := id, name := name, principal := (principal : ℝ), rate := (rate : ℝ),
    startDate := startDate, endDate := none, months := 0, simpleInterest := 0,
    compoundInterest := 0, totalSimple := (principal : ℝ),
    totalCompound := (principal : ℝ), calculationDate := now }

/-- JS truthiness of a `parseFloat` result (`none` models `NaN`):
`!v` is true exactly for `NaN` and `0`. -/
def numFalsy : Option ℚ → Bool
  | none => true
  | some v => v == 0

/-- JS comparison `v <= 0` on a `parseFloat` result: false for `NaN`. -/
def numLeZero : Option ℚ → Bool
  | none => false
  | some v => decide (v ≤ 0)

/-- JS comparison `v < 0` on a `parseFloat` result: false for `NaN`. -/
def numLtZero : Option ℚ → Bool
  | none => false
  | some v => decide (v < 0)

/-- The validation chain of `addInvestment` in `script_new.js` (lines
107-122; same guards in `validateStepOne` lines 586-593 and in
`script_db.js` lines 154-170): reject when the name (already trimmed by
the input plumbing, `value.trim()`) is empty, when
`!principal || principal <= 0`, when `!rate || rate < 0`, or when no
start date is given. -/
def addInvestmentValid (name : String) (principal rate : Option ℚ)
    (startDate : Option CalDate) : Bool :=
  if name = "" then false
  else if numFalsy principal || numLeZero principal then false
  else if numFalsy rate || numLtZero rate then false
  else if startDate = none then false
  else true

/-- `addInvestment` as a record producer: `some` record exactly when the
validation chain passes, `none` when any guard rejects the submission. -/
noncomputable def addInvestment (id : ℕ) (name : String) (principal rate : Option ℚ)
    (startDate : Option CalDate) (now : ℕ) : Option InvestmentRecord :=
  if addInvestmentValid name principal rate startDate then
    match principal, rate, startDate with
    | some p, some r, some d => some (mkInvestment id name p r d now)
    | _, _, _ => none
  else none

/-- The per-record effect of `calculateInterest` in `script_new.js`
(lines 192-237): reject (record unchanged) when the end date is missing,
earlier than the start date, or yields a month span `<= 0`; otherwise
overwrite the end date, the month span, all four interest fields and the
calculation timestamp together. -/
noncomputable def calculateInterestStep (inv : InvestmentRecord)
    (endDateInput : Option CalDate) (now : ℕ) : InvestmentRecord :=
  match endDateInput with
  | none => inv
  | some e =>
    if dateLt e inv.startDate then inv
    else
      let months := monthsBetween inv.startDate e
      if months ≤ 0 then inv
      else
        let simpleInterest := inv.principal * (inv.rate / 100) * (months : ℝ)
        let compoundInterest :=
          inv.principal * ((1 + inv.rate / 100) ^ ((months : ℚ) : ℝ) - 1)
        { inv with
          endDate := some e, months := (months : ℝ),
          simpleInterest := simpleInterest, compoundInterest := compoundInterest,
          totalSimple := inv.principal + simpleInterest,
          totalCompound := inv.principal + compoundInterest,
          calculationDate := now }

/-- Replace the first element satisfying the predicate, as the in-place
mutation of the object returned by `this.history.find(...)` does. -/
def updateFirst (p : InvestmentRecord → Bool)
    (f : InvestmentRecord → InvestmentRecord) :
    List InvestmentRecord → List InvestmentRecord
  | [] => []
  | x :: xs => if p x then f x :: xs else x :: updateFirst p f xs

/-- `this.history.find(inv => inv.id === id)`. -/
def findInvestment (history : List InvestmentRecord) (id : ℕ) :
    Option InvestmentRecord :=
  history.find? (fun inv => inv.id == id)

/-- One invocation of `calculateInterest` in `script_new.js` at the
history level: every guard failure (`!this.currentEditId`, missing end
date, record not found, end before start, month span `<= 0`) returns
before any field of any record is written, so the history is returned
unchanged; on success the found record is overwritten in place. -/
noncomputable def calculateInterestAttempt (history : List InvestmentRecord)
    (currentEditId : Option ℕ) (endDateInput : Option CalDate) (now : ℕ) :
    List InvestmentRecord :=
  match currentEditId with
  | none => history
  | some editId =>
    match endDateInput with
    | none => history
    | some e =>
      match findInvestment history editId with
      | none => history
      | some inv =>
        if dateLt e inv.startDate then history
        else if monthsBetween inv.startDate e ≤ 0 then history
        else
          updateFirst (fun r => r.id == editId)
            (fun r => calculateInterestStep r (some e) now) history

end InterestCalc

namespace InterestCalc

/-- **C1.** For every principal `p > 0`, rate `r ≥ 0` and month count
`m > 0`, `calculateInterest` returns `simpleInterest = p * (r/100) * m`,
`compoundInterest = p * ((1 + r/100)^m - 1)` with real exponentiation,
`totalSimple = p + simpleInterest` and `totalCompound = p + compoundInterest`. -/
theorem calculateInterest_formulas (p r m : ℝ)
    (hp : 0 < p) (hr : 0 ≤ r) (hm : 0 < m) :
    calculateInterest p r m =
      { simpleInterest := p * (r / 100) * m,
        compoundInterest := p * ((1 + r / 100) ^ m - 1),
        totalSimple := p + p * (r / 100) * m,
        totalCompound := p + p * ((1 + r / 100) ^ m - 1) } := rfl

theorem calculateInterest_formulas_witness :
    calculateInterest 10000 5 3 =
      { simpleInterest := 10000 * (5 / 100) * 3,
        compoundInterest := 10000 * ((1 + 5 / 100) ^ (3 : ℝ) - 1),
        totalSimple := 10000 + 10000 * (5 / 100) * 3,
        totalCompound := 10000 + 10000 * ((1 + 5 / 100) ^ (3 : ℝ) - 1) } :=
  calculateInterest_formulas 10000 5 3 (by norm_num) (by norm_num) (by norm_num)

/-- **C2.** For every pair of dates with `finish` not earlier than `start`,
`monthsBetween start finish` equals
`(finish.year - start.year) * 12 + (finish.month - start.month)` (0–11 month
indices) plus `(finish.day - start.day) / 30`, a possibly fractional and
possibly non-positive rational. -/
theorem monthsBetween_formula (start finish : CalDate)
    (h : ¬ dateLt finish start) :
    monthsBetween start finish =
      (((finish.year - start.year) * 12 + (finish.month - start.month) : ℤ) : ℚ)
        + ((finish.day - start.day : ℤ) : ℚ) / 30 := by
  unfold monthsBetween
  rw [if_neg h]

theorem monthsBetween_formula_witness :
    monthsBetween ⟨2024, 0, 15⟩ ⟨2024, 1, 10⟩ =
      ((((2024 : Int) - 2024) * 12 + ((1 : Int) - 0) : ℤ) : ℚ)
        + (((10 : Int) - 15 : ℤ) : ℚ) / 30 :=
  monthsBetween_formula ⟨2024, 0, 15⟩ ⟨2024, 1, 10⟩ (by decide)

/-- Shared helper: the guard branch of `monthsBetween`. -/
theorem monthsBetween_zero_of_lt (start finish : CalDate)
    (h : dateLt finish start) :
    monthsBetween start finish = 0 := by
  unfold monthsBetween
  rw [if_pos h]

/-- **C5.** Whenever the second date argument is strictly earlier than the
first, `monthsBetween` returns exactly `0` through the inverted-range
guard. -/
theorem monthsBetween_inverted_range (start finish : CalDate)
    (h : dateLt finish start) :
    monthsBetween start finish = 0 :=
  monthsBetween_zero_of_lt start finish h

theorem monthsBetween_inverted_range_witness :
    monthsBetween ⟨2024, 0, 1⟩ ⟨2023, 11, 1⟩ = 0 :=
  monthsBetween_inverted_range ⟨2024, 0, 1⟩ ⟨2023, 11, 1⟩ (by decide)

/-- **C6.** For `p > 0`, `r > 0`, `m > 1` the engine's compound interest
strictly exceeds its simple interest:
`p * ((1 + r/100)^m - 1) > p * (r/100) * m` (strict Bernoulli). -/
theorem compoundInterest_gt_simpleInterest (p r m : ℝ)
    (hp : 0 < p) (hr : 0 < r) (hm : 1 < m) :
    (calculateInterest p r m).simpleInterest
      < (calculateInterest p r m).compoundInterest := by
  have hx : (0 : ℝ) < r / 100 := by positivity
  have key : 1 + m * (r / 100) < (1 + r / 100) ^ m :=
    one_add_mul_self_lt_rpow_one_add (by linarith) (ne_of_gt hx) hm
  show p * (r / 100) * m < p * ((1 + r / 100) ^ m - 1)
  have h1 : m * (r / 100) < (1 + r / 100) ^ m - 1 := by linarith
  calc p * (r / 100) * m = p * (m * (r / 100)) := by ring
    _ < p * ((1 + r / 100) ^ m - 1) := mul_lt_mul_of_pos_left h1 hp

theorem compoundInterest_gt_simpleInterest_witness :
    (calculateInterest 10000 5 3).simpleInterest
      < (calculateInterest 10000 5 3).compoundInterest :=
  compoundInterest_gt_simpleInterest 10000 5 3 (by norm_num) (by norm_num)
    (by norm_num)

/-- Shared helper: the else-branch value of `monthsBetween`. -/
theorem monthsBetween_eq (start finish : CalDate) (h : ¬ dateLt finish start) :
    monthsBetween start finish =
      (((finish.year - start.year) * 12 + (finish.month - start.month) : ℤ) : ℚ)
        + ((finish.day - start.day : ℤ) : ℚ) / 30 := by
  unfold monthsBetween
  rw [if_neg h]

/-- Shared helper: a date strictly precedes its one-month advance. -/
theorem dateLt_addOneMonth (d : CalDate) : dateLt d (addOneMonth d) := by
  unfold dateLt addOneMonth
  by_cases h11 : d.month = 11 <;> simp [h11]

/-- **C9 (counterexample).** With start 2024-05-10, advancing the end date
2024-01-10 (same day-of-month) by one month leaves both spans pinned at 0
by the inverted-range guard, so the span does not increase by 1. -/
theorem monthsBetween_addOneMonth_counterexample :
    ¬ (monthsBetween ⟨2024, 4, 10⟩ (addOneMonth ⟨2024, 0, 10⟩)
        = monthsBetween ⟨2024, 4, 10⟩ ⟨2024, 0, 10⟩ + 1) := by
  have e1 : addOneMonth ⟨2024, 0, 10⟩ = ⟨2024, 1, 10⟩ := by
    norm_num [addOneMonth]
  rw [e1, monthsBetween_zero_of_lt ⟨2024, 4, 10⟩ ⟨2024, 1, 10⟩ (by decide),
    monthsBetween_zero_of_lt ⟨2024, 4, 10⟩ ⟨2024, 0, 10⟩ (by decide)]
  norm_num

/-- **C9 (amended).** For every start date and every end date on or after
it, advancing the end date by exactly one calendar month (day-of-month
held constant) increases the month span by exactly 1. -/
theorem monthsBetween_addOneMonth (start finish : CalDate)
    (h : ¬ dateLt finish start) :
    monthsBetween start (addOneMonth finish) = monthsBetween start finish + 1 := by
  have h2 : ¬ dateLt (addOneMonth finish) start := fun hc =>
    h (dateLt_trans (dateLt_addOneMonth finish) hc)
  rw [monthsBetween_eq start finish h, monthsBetween_eq start (addOneMonth finish) h2]
  unfold addOneMonth
  by_cases h11 : finish.month = 11
  · rw [if_pos h11, h11]
    dsimp only
    push_cast
    ring
  · rw [if_neg h11]
    dsimp only
    push_cast
    ring

theorem monthsBetween_addOneMonth_witness :
    monthsBetween ⟨2024, 0, 1⟩ (addOneMonth ⟨2024, 2, 1⟩)
      = monthsBetween ⟨2024, 0, 1⟩ ⟨2024, 2, 1⟩ + 1 :=
  monthsBetween_addOneMonth ⟨2024, 0, 1⟩ ⟨2024, 2, 1⟩ (by decide)

/-- Shared helper: rounding a rational cast to `ℝ` agrees with rational
rounding. -/
theorem round2R_ratCast (q : ℚ) : round2R (q : ℝ) = ((round2 q : ℚ) : ℝ) := by
  unfold round2R round2 jsRound
  have hc : ((q : ℝ) * 100 + 1 / 2) = (((q * 100 + 1 / 2 : ℚ) : ℝ)) := by
    push_cast
    ring
  rw [hc, Rat.floor_cast]
  push_cast
  ring

/-- **C3 (counterexample).** For principal 10000, rate 100 and the span
from 2024-01-01 to 2024-01-02 (1/30 of a month), the persisted
`simpleInterest` is 300 (computed from the span rounded to 0.03), not
333.33, the 2-decimal rounding of the formula value computed from the
unrounded span. -/
theorem calculateInterest_db_unrounded_span_counterexample :
    (calculateInterest_db 10000 100
        ((monthsBetween ⟨2024, 0, 1⟩ ⟨2024, 0, 2⟩ : ℚ) : ℝ)).simpleInterest
      ≠ round2R (10000 * ((100 : ℝ) / 100)
          * ((monthsBetween ⟨2024, 0, 1⟩ ⟨2024, 0, 2⟩ : ℚ) : ℝ)) := by
  have hm : monthsBetween ⟨2024, 0, 1⟩ ⟨2024, 0, 2⟩ = 1 / 30 := by
    rw [monthsBetween_eq ⟨2024, 0, 1⟩ ⟨2024, 0, 2⟩ (by decide)]
    norm_num
  rw [hm]
  show round2R (10000 * ((100 : ℝ) / 100) * round2R ((1 / 30 : ℚ) : ℝ)) ≠ _
  have e1 : round2R ((1 / 30 : ℚ) : ℝ) = ((3 / 100 : ℚ) : ℝ) := by
    rw [round2R_ratCast]
    norm_cast
    unfold round2 jsRound
    have hf : ⌊(1 / 30 * 100 + 1 / 2 : ℚ)⌋ = 3 := by
      rw [Int.floor_eq_iff]
      norm_num
    rw [hf]
    norm_num
  have e2 : (10000 : ℝ) * ((100 : ℝ) / 100) * ((3 / 100 : ℚ) : ℝ)
      = ((300 : ℚ) : ℝ) := by
    push_cast
    norm_num
  have e3 : round2R ((300 : ℚ) : ℝ) = ((300 : ℚ) : ℝ) := by
    rw [round2R_ratCast]
    norm_cast
    unfold round2 jsRound
    have hf : ⌊(300 * 100 + 1 / 2 : ℚ)⌋ = 30000 := by
      rw [Int.floor_eq_iff]
      norm_num
    rw [hf]
    norm_num
  have e4 : (10000 : ℝ) * ((100 : ℝ) / 100) * ((1 / 30 : ℚ) : ℝ)
      = ((1000 / 3 : ℚ) : ℝ) := by
    push_cast
    norm_num
  have e5 : round2R ((1000 / 3 : ℚ) : ℝ) = ((33333 / 100 : ℚ) : ℝ) := by
    rw [round2R_ratCast]
    norm_cast
    unfold round2 jsRound
    have hf : ⌊(1000 / 3 * 100 + 1 / 2 : ℚ)⌋ = 33333 := by
      rw [Int.floor_eq_iff]
      norm_num
    rw [hf]
    norm_num
  rw [e1, e2, e3, e4, e5]
  exact fun hc => by norm_num at hc

/-- **C3 (amended).** In the round-immediately variant each persisted
output is rounded to 2 decimals immediately, but the interest formulas
are computed from the month span itself already rounded to 2 decimals,
and each total is the principal plus the already-rounded interest,
rounded again; the persisted and displayed values agree exactly. -/
theorem calculateInterest_db_rounding (p r m : ℝ) :
    (calculateInterest_db p r m).simpleInterest
        = round2R (p * (r / 100) * round2R m) ∧
      (calculateInterest_db p r m).compoundInterest
        = round2R (p * ((1 + r / 100) ^ round2R m - 1)) ∧
      (calculateInterest_db p r m).totalSimple
        = round2R (p + round2R (p * (r / 100) * round2R m)) ∧
      (calculateInterest_db p r m).totalCompound
        = round2R (p + round2R (p * ((1 + r / 100) ^ round2R m - 1))) ∧
      persistedUpdate p r m = displayedResults p r m :=
  ⟨rfl, rfl, rfl, rfl, rfl⟩

/-- **C4 (counterexample).** A freshly created record (principal 100) has
no end date, yet its `totalSimple` field is 100, not zero/absent: the
creation code initialises both totals to the principal. -/
theorem mkInvestment_totalSimple_counterexample :
    (mkInvestment 1 "a" 100 5 ⟨2024, 0, 1⟩ 0).endDate = none ∧
      (mkInvestment 1 "a" 100 5 ⟨2024, 0, 1⟩ 0).totalSimple ≠ 0 := by
  refine ⟨rfl, ?_⟩
  show ((100 : ℚ) : ℝ) ≠ 0
  norm_num

/-- **C4 (amended).** Until an end date is supplied, `months`,
`simpleInterest` and `compoundInterest` are zero and both totals equal
the principal; a calculation step either leaves the record completely
unchanged or sets the end date together with all five derived fields and
the calculation timestamp in the same update — no partial states. -/
theorem investment_derived_fields_atomic (id : ℕ) (nm : String) (p r : ℚ)
    (d : CalDate) (ts : ℕ) (inv : InvestmentRecord) (edi : Option CalDate)
    (now : ℕ) :
    ((mkInvestment id nm p r d ts).endDate = none ∧
      (mkInvestment id nm p r d ts).months = 0 ∧
      (mkInvestment id nm p r d ts).simpleInterest = 0 ∧
      (mkInvestment id nm p r d ts).compoundInterest = 0 ∧
      (mkInvestment id nm p r d ts).totalSimple = (p : ℝ) ∧
      (mkInvestment id nm p r d ts).totalCompound = (p : ℝ)) ∧
    (calculateInterestStep inv edi now = inv ∨
      ∃ e, edi = some e ∧
        calculateInterestStep inv edi now =
          { inv with
            endDate := some e,
            months := ((monthsBetween inv.startDate e : ℚ) : ℝ),
            simpleInterest := inv.principal * (inv.rate / 100)
              * ((monthsBetween inv.startDate e : ℚ) : ℝ),
            compoundInterest := inv.principal
              * ((1 + inv.rate / 100) ^ ((monthsBetween inv.startDate e : ℚ) : ℝ) - 1),
            totalSimple := inv.principal + inv.principal * (inv.rate / 100)
              * ((monthsBetween inv.startDate e : ℚ) : ℝ),
            totalCompound := inv.principal + inv.principal
              * ((1 + inv.rate / 100) ^ ((monthsBetween inv.startDate e : ℚ) : ℝ) - 1),
            calculationDate := now }) := by
  refine ⟨⟨rfl, rfl, rfl, rfl, rfl, rfl⟩, ?_⟩
  rcases edi with _ | e
  · exact Or.inl rfl
  · simp only [calculateInterestStep]
    by_cases h1 : dateLt e inv.startDate
    · rw [if_pos h1]
      exact Or.inl rfl
    · rw [if_neg h1]
      by_cases h2 : monthsBetween inv.startDate e ≤ 0
      · rw [if_pos h2]
        exact Or.inl rfl
      · rw [if_neg h2]
        exact Or.inr ⟨e, rfl, rfl⟩

/-- **C7.** A calculation attempt with a missing end date, an end date
earlier than the targeted record's start date, or a month span `<= 0`
is rejected: the targeted record and the whole history collection are
returned exactly as they were. -/
theorem calculateInterestAttempt_rejected (history : List InvestmentRecord)
    (editId : ℕ) (endDateInput : Option CalDate) (now : ℕ)
    (h : endDateInput = none ∨
      ∃ e inv, endDateInput = some e ∧ findInvestment history editId = some inv ∧
        (dateLt e inv.startDate ∨ monthsBetween inv.startDate e ≤ 0)) :
    calculateInterestAttempt history (some editId) endDateInput now = history := by
  rcases h with h | ⟨e, inv, he, hfind, hrej⟩
  · subst h
    rfl
  · subst he
    simp only [calculateInterestAttempt, hfind]
    rcases hrej with h1 | h2
    · rw [if_pos h1]
    · by_cases hd : dateLt e inv.startDate
      · rw [if_pos hd]
      · rw [if_neg hd, if_pos h2]

theorem calculateInterestAttempt_rejected_witness :
    calculateInterestAttempt [mkInvestment 1 "a" 100 5 ⟨2024, 0, 15⟩ 0] (some 1)
        (some ⟨2024, 0, 10⟩) 7 = [mkInvestment 1 "a" 100 5 ⟨2024, 0, 15⟩ 0] :=
  calculateInterestAttempt_rejected [mkInvestment 1 "a" 100 5 ⟨2024, 0, 15⟩ 0] 1
    (some ⟨2024, 0, 10⟩) 7
    (Or.inr ⟨⟨2024, 0, 10⟩, mkInvestment 1 "a" 100 5 ⟨2024, 0, 15⟩ 0, rfl, rfl,
      Or.inl (by decide)⟩)

/-- **C8.** The record-creation validation rejects a submission whose rate
is exactly 0 (with name, principal and start date all valid): the `!rate`
falsiness guard fires, so no record is created, although the spec admits
every finite rate `>= 0`. -/
theorem addInvestment_rejects_zero_rate :
    addInvestment 1 "John" (some 100) (some 0) (some ⟨2024, 0, 1⟩) 0 = none := by
  rfl

/-- **C10.** A submission whose principal or rate parses to `NaN` is
rejected by the falsiness guards before any record is created, so `NaN`
never enters a stored record and the interest formulas are never invoked
from such a submission. -/
theorem addInvestment_rejects_nan (id : ℕ) (name : String)
    (principal rate : Option ℚ) (startDate : Option CalDate) (now : ℕ)
    (h : principal = none ∨ rate = none) :
    addInvestment id name principal rate startDate now = none := by
  rcases h with h | h <;> subst h <;>
    simp [addInvestment, addInvestmentValid, numFalsy, numLeZero, numLtZero]

theorem addInvestment_rejects_nan_witness :
    addInvestment 1 "John" none (some 5) (some ⟨2024, 0, 1⟩) 0 = none :=
  addInvestment_rejects_nan 1 "John" none (some 5) (some ⟨2024, 0, 1⟩) 0
    (Or.inl rfl)

end InterestCalc
